import Mathlib

/-!
# Verification of FARM `farm/modeling/language_model.py`

A shallow embedding of the model-family dispatch, token-pooling-and-extraction
and word-embedding-loading logic of `src/farm/modeling/language_model.py`,
together with theorems settling the specification's claims about them.

Conventions of the embedding:
* Python floats are modelled as `ℚ` (the claims are about exact arithmetic
  identities, not rounding).
* A batch of per-token vectors (`sequence_output`, a numpy/torch array of
  shape batch × seq × dim) is `List (List (List ℚ))`; a padding mask of
  shape batch × seq with integer entries is `List (List ℕ)`.
* Python exceptions are modelled with `Except`/`Option` results.
-/

set_option autoImplicit false

namespace Farm

/-! ## Substring containment (Python `sub in s` on strings) -/

/-- `listStartsWith sub l` : `sub` is an initial segment of `l`. -/
def listStartsWith : List Char → List Char → Bool
  | [], _ => true
  | _ :: _, [] => false
  | a :: as, b :: bs => a == b && listStartsWith as bs

/-- `occursIn sub l` : `sub` occurs contiguously somewhere in `l`. -/
def occursIn (sub : List Char) : List Char → Bool
  | [] => listStartsWith sub []
  | c :: cs => listStartsWith sub (c :: cs) || occursIn sub cs

/-- Python's `sub in s` substring test on strings. -/
def strIn (sub s : String) : Bool :=
  occursIn sub.toList s.toList

/-- ASCII lowercasing of one character (the relevant fragment of Python's
`str.lower`, which the source applies to model identifiers). -/
def charLower (c : Char) : Char :=
  if 65 ≤ c.toNat && c.toNat ≤ 90 then Char.ofNat (c.toNat + 32) else c

/-- Python's `s.lower()` on a model identifier. -/
def strLower (s : String) : String :=
  ⟨s.data.map charLower⟩

/-! ## `LanguageModel.load` dispatch (lines 115-149)

We model the branch taken when `pretrained_model_name_or_path` names no local
`language_model_config.json` and no explicit `language_model_class` was
supplied: the family is inferred from the identifier by the substring
cascade of lines 124-137. -/

/-- The substring cascade of `LanguageModel.load` (lines 124-137), returning
the name of the adapter class it selects, or `none` when no check fires
(in which case the Python variable `language_model_class` remains `None`).
The `word2vec`/`glove` checks are the only ones applied to the lowercased
identifier, exactly as in the source. -/
def inferLanguageModelClass (name : String) : Option String :=
  if strIn "xlm" name && strIn "roberta" name then some "XLMRoberta"
  else if strIn "roberta" name then some "Roberta"
  else if strIn "albert" name then some "Albert"
  else if strIn "distilbert" name then some "DistilBert"
  else if strIn "bert" name then some "Bert"
  else if strIn "xlnet" name then some "XLNet"
  else if strIn "word2vec" (strLower name) || strIn "glove" (strLower name) then
    some "WordEmbedding_LM"
  else none

/-- Disjunction of exactly the guards of the cascade: the identifier contains
some supported family-name substring. -/
def containsSupportedFamily (name : String) : Bool :=
  (strIn "xlm" name && strIn "roberta" name) || strIn "roberta" name ||
    strIn "albert" name || strIn "distilbert" name || strIn "bert" name ||
    strIn "xlnet" name || strIn "word2vec" (strLower name) ||
    strIn "glove" (strLower name)

/-- How the no-local-config, no-explicit-class branch of `LanguageModel.load`
can fail. -/
inductive LoadErr where
  /-- `cls.subclasses[language_model_class]` with `language_model_class = None`
  (line 139): a bare `KeyError: None` whose message names no model family. -/
  | keyErrorNone : LoadErr
  /-- The `Exception` of lines 144-149 (`"Model not found for ..."`), the
  actionable message listing the supported families. -/
  | modelNotFound (msg : String) : LoadErr
  deriving DecidableEq

/-- Lines 120-149 of `LanguageModel.load` for an identifier with no local
saved config and `language_model_class=None`: infer the class by the
substring cascade, then index `cls.subclasses` with the result.  When the
cascade fired, `subclasses[language_model_class].load(...)` returns an
adapter instance (truthy), so the `if not language_model` guard of line 144
does not fire; when it did not fire, the subscript `subclasses[None]` raises
`KeyError` before line 144 is ever reached. -/
def load_dispatch (name : String) : Except LoadErr String :=
  match inferLanguageModelClass name with
  | some c => .ok c
  | none => .error .keyErrorNone

/-! ## `formatted_preds` and `_pool_tokens` (lines 245-311) -/

/-- One token vector (one row of the hidden-state matrix). -/
abbrev Vec := List ℚ

/-- Per-token vectors of one sequence (seq × dim). -/
abbrev TokenVecs := List Vec

/-- A batch of per-token vectors (batch × seq × dim). -/
abbrev BatchVecs := List TokenVecs

/-- The per-item value stored in a prediction: the extraction strategies
produce either one vector per item (`pooled`, `cls_token`, `reduce_mean`,
`reduce_max`) or one vector per token (`per_token`). -/
inductive ItemVec where
  | one (v : Vec) : ItemVec
  | perTok (vs : TokenVecs) : ItemVec
  deriving DecidableEq

/-- One formatted prediction: the sample's tokens (its `context`) paired with
the extracted vector(s). -/
structure Pred where
  context : List String
  vec : ItemVec
  deriving DecidableEq

/-- `zip(vecs, samples)` followed by building the list of prediction dicts
(lines 288-294); `List.zip` truncates to the shorter list exactly as
Python's `zip` does. -/
def mkPreds (vecs : List ItemVec) (samples : List (List String)) : List Pred :=
  (vecs.zip samples).map (fun p => { context := p.2, vec := p.1 })

/-- First entry of a boolean row set to `true`
(`ignore_mask_2d[:, 0] = True`, line 304). -/
def setFirstTrue : List Bool → List Bool
  | [] => []
  | _ :: t => true :: t

/-- Masked mean of one item's token vectors along the sequence axis
(`np.ma.array(data=token_vecs, mask=ignore_mask_3d).mean(axis=1)`, line 310):
for each of the `dim` components, the average of that component over the
positions whose ignore flag is `false`.  (When every position is ignored,
numpy yields a masked placeholder; here the `ℚ` division by zero yields `0`,
a case no claim exercises.) -/
def maskedMean (item : TokenVecs) (ignore : List Bool) (dim : ℕ) : Vec :=
  let valid := ((item.zip ignore).filter (fun p => !p.2)).map Prod.fst
  (List.range dim).map
    (fun d => ((valid.map (fun v => v.getD d 0)).sum) / (valid.length : ℚ))

/-- Masked max of one item's token vectors along the sequence axis
(line 308), componentwise over the non-ignored positions (`0` standing for
numpy's placeholder when every position is ignored). -/
def maskedMax (item : TokenVecs) (ignore : List Bool) (dim : ℕ) : Vec :=
  let valid := ((item.zip ignore).filter (fun p => !p.2)).map Prod.fst
  (List.range dim).map
    (fun d => ((valid.map (fun v => v.getD d 0)).foldr max 0))

/-- `LanguageModel._pool_tokens` (lines 296-311).  The ignore mask is
`padding_mask == 0`, with the first position forced to ignored when
`ignore_first_token` is set; the reduction runs along the sequence axis.
`none` models the `UnboundLocalError` Python would raise for a strategy
other than `reduce_max`/`reduce_mean` (the local `pooled_vecs` is never
assigned). -/
def pool_tokens (sequence_output : BatchVecs) (padding_mask : List (List ℕ))
    (strategy : String) (ignore_first_token : Bool) : Option (List Vec) :=
  let dim := ((sequence_output.headD []).headD []).length
  let rows := (sequence_output.zip padding_mask).map (fun p =>
    let ignore0 := p.2.map (fun m => m == 0)
    (p.1, if ignore_first_token then setFirstTrue ignore0 else ignore0))
  if strategy == "reduce_max" then
    some (rows.map (fun p => maskedMax p.1 p.2 dim))
  else if strategy == "reduce_mean" then
    some (rows.map (fun p => maskedMean p.1 p.2 dim))
  else none

/-- The attributes `formatted_preds` reads off `self`; `none` models a missing
attribute (Python's `hasattr` check of line 264). -/
structure LMExtract where
  extraction_layer : Option Int
  extraction_strategy : Option String

/-- The `ValueError` message of line 275. -/
def pooledLayerErrMsg (layer : Int) : String :=
  "Pooled output only works for the last layer, but got extraction_layer = "
    ++ toString layer ++ ". Please set extraction_layer=-1."

/-- `LanguageModel.formatted_preds` (lines 245-294).  `sequence_output` and
`pooled_output` are the two components unpacked from the forward-pass tuple
(lines 269-270); `samples` carries each sample's token list
(`sample.tokenized["tokens"]`).  Errors model the `ValueError`s of lines
264-266 and 273-275 and the `NotImplementedError` of line 286.
`sequence_output[:, 0, :]` (line 284) is the vector at token position 0 of
each item; numpy indexing presupposes a nonempty sequence axis, which
`List.getD 0 []` models totally. -/
def formatted_preds (self : LMExtract) (sequence_output : BatchVecs)
    (pooled_output : List Vec) (samples : List (List String))
    (ignore_first_token : Bool) (padding_mask : List (List ℕ)) :
    Except String (List Pred) :=
  match self.extraction_layer, self.extraction_strategy with
  | some layer, some strat =>
    if strat == "pooled" then
      if layer != -1 then .error (pooledLayerErrMsg layer)
      else .ok (mkPreds (pooled_output.map ItemVec.one) samples)
    else if strat == "per_token" then
      .ok (mkPreds (sequence_output.map ItemVec.perTok) samples)
    else if strat == "reduce_mean" then
      match pool_tokens sequence_output padding_mask strat ignore_first_token with
      | some vecs => .ok (mkPreds (vecs.map ItemVec.one) samples)
      | none => .error "UnboundLocalError"
    else if strat == "reduce_max" then
      match pool_tokens sequence_output padding_mask strat ignore_first_token with
      | some vecs => .ok (mkPreds (vecs.map ItemVec.one) samples)
      | none => .error "UnboundLocalError"
    else if strat == "cls_token" then
      .ok (mkPreds (sequence_output.map (fun it => ItemVec.one (it.getD 0 []))) samples)
    else .error "NotImplementedError"
  | _, _ =>
    .error "extraction_layer or extraction_strategy not specified for LM."

/-! ## `EmbeddingModel.load_vectors` and `EmbeddingModel.__init__`
(lines 911-966)

The loader reads the word-vector file line by line.  In the embedding an
input line is represented after the purely lexical steps of lines 938-943
(`strip`, `split(' ', 1)` and `np.fromstring(vec, sep=' ')`): a pair of the
word token and the parsed numeric vector.  Blank lines (dropped by the
`if line:` test) and lines whose numeric part `np.fromstring` cannot parse
(the `except` of line 953, which only logs) are omitted from the list, as
the code discards them without touching the loop state. -/

/-- The loop state of `load_vectors` (lines 932-935): processed words, the
repetition counter, the established dimensionality (`None` until the first
valid line), and the word → vector dict (insertion order; a word is inserted
at most once). -/
structure VecState where
  words_transformed : List String
  repetitions : ℕ
  dim : Option ℕ
  vectors : List (String × List ℚ)
  deriving DecidableEq

/-- One iteration of the reading loop of `load_vectors` (lines 937-957):
repeated words only bump the counter; while no dimensionality is
established, a line with fewer than 4 components is skipped as a presumed
word2vec header (line 945) and a longer one establishes the dimensionality;
a line is stored exactly when its length equals the established
dimensionality. -/
def processLine (st : VecState) (l : String × List ℚ) : VecState :=
  if st.words_transformed.contains l.1 then
    { st with repetitions := st.repetitions + 1 }
  else
    match st.dim with
    | none =>
      if l.2.length < 4 then st
      else
        { st with dim := some l.2.length,
                  vectors := st.vectors ++ [l],
                  words_transformed := st.words_transformed ++ [l.1] }
    | some d =>
      if l.2.length == d then
        { st with vectors := st.vectors ++ [l],
                  words_transformed := st.words_transformed ++ [l.1] }
      else st

/-- The whole reading loop of `load_vectors`, from the empty initial state. -/
def foldVectors (lines : List (String × List ℚ)) : VecState :=
  lines.foldl processLine ⟨[], 0, none, []⟩

/-- `EmbeddingModel.load_vectors` (lines 928-966): run the reading loop, then
build one row per vocabulary entry, defaulting a word absent from the dict to
the zero vector of the established dimensionality
(`vectors.get(w, np.zeros(embeddings_dimensionality))`, line 962) and
collecting a warning for it (line 964).  When no line established a
dimensionality the code calls `torch.zeros((len(vocab), None))`, a
`TypeError`; that crash is the `none` result. -/
def load_vectors (vocab : List String) (lines : List (String × List ℚ)) :
    Option (List (List ℚ) × List String) :=
  match (foldVectors lines).dim with
  | none => none
  | some d =>
    some (vocab.map
            (fun w => (List.lookup w (foldVectors lines).vectors).getD
                        (List.replicate d 0)),
          vocab.filter
            (fun w => (List.lookup w (foldVectors lines).vectors).isNone))

/-- The key sequence of the `transformers` `load_vocab` dict given the vocab
file's token list: insertion order, a repeated token keeping its first
position. -/
def dictKeys (tokens : List String) : List String :=
  tokens.foldl (fun acc w => if acc.contains w then acc else acc ++ [w]) []

/-- The index the `transformers` `load_vocab` dict assigns to `w` given the
vocab file's token list: `vocab[token] = index` in file order, so a repeated
token keeps its last index; `none` when the token does not occur. -/
def dictIndex (tokens : List String) (w : String) : Option ℕ :=
  (List.range tokens.length).foldl
    (fun acc i => if tokens.get? i = some w then some i else acc) none

/-- The fields of a constructed `EmbeddingModel` the claims are about. -/
structure EmbeddingModelState where
  vocabKeys : List String
  embeddings : List (List ℚ)
  unk_idx : ℕ
  deriving DecidableEq

/-- The `assert` message of line 917. -/
def noUnkMsg : String := "No [UNK] symbol in Wordembeddingmodel! Aborting"

/-- `EmbeddingModel.__init__` (lines 912-918): load the vocab (a dict, so
its key sequence is the token list with duplicates collapsed to their first
position while a duplicated token's index is its last), load the vectors
over those keys, then `assert "[UNK]" in self.vocab` and record
`self.vocab["[UNK]"]` as `unk_idx`.  The vector loading runs before the
assert, so its `TypeError` crash (no established dimensionality) precedes
the `[UNK]` check. -/
def EmbeddingModel_init (tokens : List String)
    (lines : List (String × List ℚ)) : Except String EmbeddingModelState :=
  let keys := dictKeys tokens
  match load_vectors keys lines with
  | none => .error "TypeError: torch.zeros received None dimensionality"
  | some p =>
    if tokens.contains "[UNK]" then
      .ok { vocabKeys := keys, embeddings := p.1,
            unk_idx := (dictIndex tokens "[UNK]").getD 0 }
    else .error noUnkMsg

/-! ## `LanguageModel.save` / generic reload (lines 115-119, 181-202)

`save_config` writes the wrapped config as JSON after setting its `name`
field to the adapter's class name and its `language` field to the adapter's
language (lines 184-185); `save` additionally serializes the weights
(lines 196-202).  The generic `LanguageModel.load` on a directory holding
such a config dispatches on `config["name"]` through the `subclasses`
registry (lines 116-119), and every adapter's FARM-style branch
reconstructs the wrapped model from the saved config and weights and reads
its `language` back off the config.  The external library's
config/weights (de)serialization is modelled as faithfully restoring the
saved fields, among them the vocabulary size. -/

/-- The `subclasses` registry built up by `__init_subclass__` (lines 57-64):
the class names of the adapters defined in the module, in definition
order. -/
def registeredSubclasses : List String :=
  ["Bert", "Albert", "Roberta", "XLMRoberta", "DistilBert", "XLNet",
   "WordEmbedding_LM"]

/-- The saved `language_model_config.json` fields the round-trip claim is
about. -/
structure LMConfigFile where
  name : String
  language : String
  vocab_size : ℕ
  deriving DecidableEq

/-- A loaded language model, abstracted to the adapter class wrapping it and
the fields the round-trip claim compares. -/
structure LoadedModel where
  cls : String
  language : String
  vocab_size : ℕ
  deriving DecidableEq

/-- `LanguageModel.save_config` (lines 181-187): the written config carries
the adapter's class name as `name`, its `language`, and the wrapped
config's remaining fields (here the vocabulary size). -/
def save_config (m : LoadedModel) : LMConfigFile :=
  { name := m.cls, language := m.language, vocab_size := m.vocab_size }

/-- An adapter's FARM-style `load` branch on a saved directory (e.g. lines
356-362 for `Bert`): rebuild the wrapped model from the saved config and
weights and take `language` from the config. -/
def adapter_farm_load (cls : String) (cfg : LMConfigFile) : LoadedModel :=
  { cls := cls, language := cfg.language, vocab_size := cfg.vocab_size }

/-- Generic `LanguageModel.load` on a directory containing a saved config
(lines 115-119): dispatch on the config's `name` through `subclasses`;
an unregistered name raises `KeyError` (`none`). -/
def load_saved_dir (cfg : LMConfigFile) : Option LoadedModel :=
  if registeredSubclasses.contains cfg.name then
    some (adapter_farm_load cfg.name cfg)
  else none

/-! ## Forward-pass output arity (lines 369-406, 455-492, 542-579, 629-666,
733-766, 824-869)

The claims about `forward` concern only the shape of the returned tuple:
whether the all-hidden-states component is included when hidden-state
output has been enabled.  Each adapter is modelled by the flag its
`enable_hidden_states_output` sets, and its `forward` by the tuple (as a
`List`) it returns, over an arbitrary tensor type `α`. -/

/-- `Bert` adapter state relevant to `forward`'s return shape
(`self.model.encoder.output_hidden_states`). -/
structure Bert where
  output_hidden_states : Bool

/-- `Bert.enable_hidden_states_output` (lines 402-403). -/
def Bert.enable_hidden_states_output (m : Bert) : Bert :=
  { m with output_hidden_states := true }

/-- `Bert.forward` (lines 369-400): with hidden-state output enabled the
returned tuple is `(sequence_output, pooled_output, all_hidden_states)`,
otherwise `(sequence_output, pooled_output)`. -/
def Bert.forward {α : Type} (m : Bert)
    (sequence_output pooled_output all_hidden_states : α) : List α :=
  if m.output_hidden_states = true then
    [sequence_output, pooled_output, all_hidden_states]
  else
    [sequence_output, pooled_output]

/-- `Albert` adapter state relevant to `forward`'s return shape. -/
structure Albert where
  output_hidden_states : Bool

/-- `Albert.enable_hidden_states_output` (lines 488-489). -/
def Albert.enable_hidden_states_output (m : Albert) : Albert :=
  { m with output_hidden_states := true }

/-- `Albert.forward` (lines 455-486), same shape as `Bert.forward`. -/
def Albert.forward {α : Type} (m : Albert)
    (sequence_output pooled_output all_hidden_states : α) : List α :=
  if m.output_hidden_states = true then
    [sequence_output, pooled_output, all_hidden_states]
  else
    [sequence_output, pooled_output]

/-- `Roberta` adapter state relevant to `forward`'s return shape. -/
structure Roberta where
  output_hidden_states : Bool

/-- `Roberta.enable_hidden_states_output` (lines 575-576). -/
def Roberta.enable_hidden_states_output (m : Roberta) : Roberta :=
  { m with output_hidden_states := true }

/-- `Roberta.forward` (lines 542-573), same shape as `Bert.forward`. -/
def Roberta.forward {α : Type} (m : Roberta)
    (sequence_output pooled_output all_hidden_states : α) : List α :=
  if m.output_hidden_states = true then
    [sequence_output, pooled_output, all_hidden_states]
  else
    [sequence_output, pooled_output]

/-- `XLMRoberta` adapter state relevant to `forward`'s return shape. -/
structure XLMRoberta where
  output_hidden_states : Bool

/-- `XLMRoberta.enable_hidden_states_output` (lines 662-663). -/
def XLMRoberta.enable_hidden_states_output (m : XLMRoberta) : XLMRoberta :=
  { m with output_hidden_states := true }

/-- `XLMRoberta.forward` (lines 629-660), same shape as `Bert.forward`. -/
def XLMRoberta.forward {α : Type} (m : XLMRoberta)
    (sequence_output pooled_output all_hidden_states : α) : List α :=
  if m.output_hidden_states = true then
    [sequence_output, pooled_output, all_hidden_states]
  else
    [sequence_output, pooled_output]

/-- `XLNet` adapter state relevant to `forward`'s return shape
(`self.model.output_hidden_states`). -/
structure XLNet where
  output_hidden_states : Bool

/-- `XLNet.enable_hidden_states_output` (lines 865-866). -/
def XLNet.enable_hidden_states_output (m : XLNet) : XLNet :=
  { m with output_hidden_states := true }

/-- `XLNet.forward` (lines 824-863): the wrapped model returns no pooled
output, so one is synthesized by the auxiliary pooler from the sequence
output; with hidden-state output enabled the returned tuple is the triple
`(sequence_output, pooled_output, all_hidden_states)`. -/
def XLNet.forward {α : Type} (m : XLNet) (pooler : α → α)
    (sequence_output all_hidden_states : α) : List α :=
  let pooled_output := pooler sequence_output
  if m.output_hidden_states = true then
    [sequence_output, pooled_output, all_hidden_states]
  else
    [sequence_output, pooled_output]

/-- `DistilBert` adapter state relevant to `forward`'s return shape
(`self.model.config.output_hidden_states`). -/
structure DistilBert where
  output_hidden_states : Bool

/-- `DistilBert.enable_hidden_states_output` (lines 762-763). -/
def DistilBert.enable_hidden_states_output (m : DistilBert) : DistilBert :=
  { m with output_hidden_states := true }

/-- `DistilBert.forward` (lines 733-760): a pooled output is synthesized by
the auxiliary pooler; in the hidden-states branch the code unpacks
`all_hidden_states` from the output tuple but returns only the pair
`(sequence_output, pooled_output)` (line 757), so both branches return a
pair. -/
def DistilBert.forward {α : Type} (m : DistilBert) (pooler : α → α)
    (sequence_output all_hidden_states : α) : List α :=
  let pooled_output := pooler sequence_output
  if m.output_hidden_states = true then
    [sequence_output, pooled_output]
  else
    [sequence_output, pooled_output]

/-! ## Theorems -/

/-- When the identifier contains a supported family-name substring, the
cascade selects some class. -/
theorem infer_isSome_of_supported (name : String)
    (h : containsSupportedFamily name = true) :
    (inferLanguageModelClass name).isSome = true := by
  unfold containsSupportedFamily at h
  unfold inferLanguageModelClass
  cases hx : strIn "xlm" name <;> cases hr : strIn "roberta" name <;>
    cases ha : strIn "albert" name <;> cases hd : strIn "distilbert" name <;>
    cases hb : strIn "bert" name <;> cases hn : strIn "xlnet" name <;>
    cases hw : strIn "word2vec" (strLower name) <;>
    cases hg : strIn "glove" (strLower name) <;> simp_all

/-- C1: an identifier that contains a supported family-name substring (and
names no local saved config) is dispatched to exactly one adapter class, and
the first-match precedence order resolves the overlapping substrings the
documented way: both `"xlm"` and `"roberta"` present gives `XLMRoberta`
(never `Roberta`); `"distilbert"` present, with no earlier match in the
precedence list, gives `DistilBert` (never `Bert`, although `"distilbert"`
contains `"bert"`); `"albert"` present, with no earlier match, gives
`Albert` (never `Bert`). -/
theorem C1_dispatch_first_match_precedence :
    (∀ name : String, containsSupportedFamily name = true →
        ∃! c : String, inferLanguageModelClass name = some c)
  ∧ (∀ name : String, strIn "xlm" name = true → strIn "roberta" name = true →
        inferLanguageModelClass name = some "XLMRoberta"
          ∧ "XLMRoberta" ≠ "Roberta")
  ∧ (∀ name : String, strIn "distilbert" name = true →
        strIn "roberta" name = false → strIn "albert" name = false →
        inferLanguageModelClass name = some "DistilBert" ∧ "DistilBert" ≠ "Bert")
  ∧ (∀ name : String, strIn "albert" name = true →
        strIn "roberta" name = false →
        inferLanguageModelClass name = some "Albert" ∧ "Albert" ≠ "Bert") := by
  refine ⟨?_, ?_, ?_, ?_⟩
  · intro name h
    obtain ⟨c, hc⟩ := Option.isSome_iff_exists.mp (infer_isSome_of_supported name h)
    exact ⟨c, hc, fun y hy => (Option.some.inj (hc.symm.trans hy)).symm⟩
  · intro name h1 h2
    exact ⟨by simp [inferLanguageModelClass, h1, h2], by decide⟩
  · intro name h1 h2 h3
    exact ⟨by simp [inferLanguageModelClass, h1, h2, h3], by decide⟩
  · intro name h1 h2
    exact ⟨by simp [inferLanguageModelClass, h1, h2], by decide⟩

/-- Witness for C1 at the documented remote-model identifiers. -/
theorem C1_dispatch_first_match_precedence_witness :
    inferLanguageModelClass "xlm-roberta-base" = some "XLMRoberta"
  ∧ inferLanguageModelClass "distilbert-base-german-cased" = some "DistilBert"
  ∧ inferLanguageModelClass "albert-base-v2" = some "Albert"
  ∧ (∃! c : String, inferLanguageModelClass "bert-base-uncased" = some c) :=
  ⟨(C1_dispatch_first_match_precedence.2.1 "xlm-roberta-base"
      (by decide) (by decide)).1,
   (C1_dispatch_first_match_precedence.2.2.1 "distilbert-base-german-cased"
      (by decide) (by decide) (by decide)).1,
   (C1_dispatch_first_match_precedence.2.2.2 "albert-base-v2"
      (by decide) (by decide)).1,
   C1_dispatch_first_match_precedence.1 "bert-base-uncased" (by decide)⟩

/-- C2 (the code diverges from the claim): for an identifier with no local
saved config, no supported family-name substring and no explicit
`language_model_class`, `LanguageModel.load` fails — but with the bare
`KeyError: None` of the `cls.subclasses[language_model_class]` subscript
(line 139), not with the actionable `Exception` of lines 144-149 listing the
supported families: that branch is unreachable on every input, because the
`KeyError` propagates before `if not language_model` (line 144) runs. -/
theorem C2_unmatched_identifier_raises_bare_keyerror :
    load_dispatch "deepset-sentence-encoder" = .error .keyErrorNone
  ∧ ∀ (name msg : String),
      load_dispatch name ≠ .error (.modelNotFound msg) := by
  refine ⟨by rfl, ?_⟩
  intro name msg h
  cases hi : inferLanguageModelClass name <;> simp [load_dispatch, hi] at h

/-- Witness for C2: the actionable-message error is not produced for a
concrete unresolvable identifier. -/
theorem C2_unmatched_identifier_raises_bare_keyerror_witness :
    load_dispatch "deepset-sentence-encoder"
      ≠ Except.error (LoadErr.modelNotFound "Model not found") :=
  C2_unmatched_identifier_raises_bare_keyerror.2 "deepset-sentence-encoder"
    "Model not found"

/-- C3: `formatted_preds` with the `pooled` strategy and an extraction layer
other than the final one (`-1`) raises the `ValueError` of line 275, and in
particular never produces a prediction list. -/
theorem C3_pooled_strategy_requires_final_layer (layer : Int) (h : layer ≠ -1)
    (seq : BatchVecs) (pooled : List Vec) (samples : List (List String))
    (ignore_first_token : Bool) (mask : List (List ℕ)) :
    formatted_preds ⟨some layer, some "pooled"⟩ seq pooled samples
        ignore_first_token mask = .error (pooledLayerErrMsg layer)
  ∧ ∀ preds, formatted_preds ⟨some layer, some "pooled"⟩ seq pooled samples
        ignore_first_token mask ≠ .ok preds := by
  have hb : (layer != -1) = true := by simpa using h
  have h1 : formatted_preds ⟨some layer, some "pooled"⟩ seq pooled samples
      ignore_first_token mask = .error (pooledLayerErrMsg layer) := by
    simp [formatted_preds, hb]
  refine ⟨h1, fun preds hok => ?_⟩
  rw [h1] at hok
  exact Except.noConfusion hok

/-- Witness for C3 at `extraction_layer = 0`. -/
theorem C3_pooled_strategy_requires_final_layer_witness :
    formatted_preds ⟨some 0, some "pooled"⟩ [] [] [] true []
      = .error (pooledLayerErrMsg 0) :=
  (C3_pooled_strategy_requires_final_layer 0 (by decide) [] [] [] true []).1

/-- The item at position 0 of a list, totalized: `getD 0` is `headD`. -/
theorem getD_zero_eq_headD {α : Type} (l : List α) (d : α) :
    l.getD 0 d = l.headD d := by
  cases l <;> rfl

/-- The predictions of the `cls_token` strategy pair each sample with the
vector at token position 0 of the corresponding item. -/
theorem mkPreds_cls_forall (seq : BatchVecs) (samples : List (List String))
    (hlen : samples.length = seq.length) :
    List.Forall₂
      (fun (pred : Pred) (item : TokenVecs) =>
        pred.vec = ItemVec.one (item.headD []))
      (mkPreds (seq.map (fun it => ItemVec.one (it.getD 0 []))) samples)
      seq := by
  induction seq generalizing samples with
  | nil =>
    rw [List.length_eq_zero.mp hlen]
    exact List.Forall₂.nil
  | cons it t ih =>
    cases samples with
    | nil => simp at hlen
    | cons s st =>
      simp only [mkPreds, List.map_cons, List.zip_cons_cons]
      refine List.Forall₂.cons ?_ ?_
      · show ItemVec.one (it.getD 0 []) = ItemVec.one (it.headD [])
        rw [getD_zero_eq_headD]
      · simpa only [mkPreds] using ih st (by simpa using hlen)

/-- C4: with the `cls_token` strategy, `formatted_preds` succeeds and gives
each sample exactly the vector at token position 0 of its item's sequence
output (`sequence_output[:, 0, :]`, line 284), whatever the padding mask
contains — two runs that differ only in the padding mask return the same
predictions.  (The nonemptiness hypothesis reflects that numpy's indexing
presupposes a nonempty sequence axis.) -/
theorem C4_cls_token_first_vector_mask_independent (layer : Int)
    (seq : BatchVecs) (pooled : List Vec) (samples : List (List String))
    (ignore_first_token : Bool) (mask mask2 : List (List ℕ))
    (hlen : samples.length = seq.length) (hne : ∀ item ∈ seq, item ≠ []) :
    (∃ preds, formatted_preds ⟨some layer, some "cls_token"⟩ seq pooled samples
          ignore_first_token mask = .ok preds
        ∧ List.Forall₂
            (fun (pred : Pred) (item : TokenVecs) =>
              pred.vec = ItemVec.one (item.headD []))
            preds seq)
  ∧ formatted_preds ⟨some layer, some "cls_token"⟩ seq pooled samples
        ignore_first_token mask
      = formatted_preds ⟨some layer, some "cls_token"⟩ seq pooled samples
        ignore_first_token mask2 := by
  refine ⟨⟨_, ?_, mkPreds_cls_forall seq samples hlen⟩, ?_⟩
  · simp [formatted_preds]
  · simp [formatted_preds]

/-- Witness for C4 on a two-item batch and two different masks. -/
theorem C4_cls_token_first_vector_mask_independent_witness :
    (∃ preds, formatted_preds ⟨some (-1), some "cls_token"⟩
          [[[1, 2], [3, 4]], [[5, 6], [7, 8]]] [] [["a"], ["b"]] true
          [[1, 1], [1, 1]] = .ok preds
        ∧ List.Forall₂
            (fun (pred : Pred) (item : TokenVecs) =>
              pred.vec = ItemVec.one (item.headD []))
            preds [[[1, 2], [3, 4]], [[5, 6], [7, 8]]])
  ∧ formatted_preds ⟨some (-1), some "cls_token"⟩
        [[[1, 2], [3, 4]], [[5, 6], [7, 8]]] [] [["a"], ["b"]] true
        [[1, 1], [1, 1]]
      = formatted_preds ⟨some (-1), some "cls_token"⟩
        [[[1, 2], [3, 4]], [[5, 6], [7, 8]]] [] [["a"], ["b"]] true
        [[1, 0], [0, 0]] :=
  C4_cls_token_first_vector_mask_independent (-1)
    [[[1, 2], [3, 4]], [[5, 6], [7, 8]]] [] [["a"], ["b"]] true
    [[1, 1], [1, 1]] [[1, 0], [0, 0]] (by decide) (by decide)

/-- The spec's words for C5: the unweighted arithmetic mean of an item's
token vectors across the sequence axis, component by component. -/
def unweightedMeanSpec (item : TokenVecs) (dim : ℕ) : Vec :=
  (List.range dim).map
    (fun d => ((item.map (fun v => v.getD d 0)).sum) / (item.length : ℚ))

/-- With an all-ones padding mask row, no position is ignored, so the
non-ignored sublist is the whole item. -/
theorem valid_all_ones (item : TokenVecs) (row : List ℕ)
    (hlen : item.length = row.length) (hones : ∀ m ∈ row, m = 1) :
    ((item.zip (row.map (fun m => m == 0))).filter
        (fun p => !p.2)).map Prod.fst = item := by
  induction item generalizing row with
  | nil => simp
  | cons v t ih =>
    cases row with
    | nil => simp at hlen
    | cons m rt =>
      have hm : m = 1 := hones m (List.mem_cons_self m rt)
      have hm0 : (m == 0) = false := by simp [hm]
      simp only [List.map_cons, List.zip_cons_cons, hm0, List.filter_cons]
      simpa using ih rt (by simpa using hlen)
        (fun x hx => hones x (List.mem_cons_of_mem m hx))

/-- Masked mean over an all-ones mask row is the unweighted mean. -/
theorem maskedMean_all_ones (item : TokenVecs) (row : List ℕ) (dim : ℕ)
    (hlen : item.length = row.length) (hones : ∀ m ∈ row, m = 1) :
    maskedMean item (row.map (fun m => m == 0)) dim
      = unweightedMeanSpec item dim := by
  unfold maskedMean unweightedMeanSpec
  rw [valid_all_ones item row hlen hones]

/-- C5: `_pool_tokens` with the `reduce_mean` strategy, an all-ones padding
mask, and `ignore_first_token` disabled returns, for each item in the batch,
the unweighted arithmetic mean of that item's token vectors across the
sequence axis (at the batch's hidden dimensionality, read off the first
token vector as numpy reads it off the array shape). -/
theorem C5_reduce_mean_all_valid_is_unweighted_mean (seq : BatchVecs)
    (mask : List (List ℕ))
    (hlen : List.Forall₂
      (fun (item : TokenVecs) (row : List ℕ) => item.length = row.length)
      seq mask)
    (hones : ∀ row ∈ mask, ∀ m ∈ row, m = 1) :
    pool_tokens seq mask "reduce_mean" false
      = some (seq.map (fun item =>
          unweightedMeanSpec item (((seq.headD []).headD []).length))) := by
  unfold pool_tokens
  simp only [Bool.false_eq_true, if_false, beq_iff_eq, String.reduceEq,
    ite_false, ite_true, beq_self_eq_true]
  generalize ((seq.headD []).headD []).length = D
  congr 1
  revert hones
  induction hlen with
  | nil => intro _; rfl
  | @cons item row t mt hl htl ih =>
    intro hones
    simp only [List.zip_cons_cons, List.map_cons, List.cons.injEq]
    refine ⟨maskedMean_all_ones item row D hl
        (hones row (List.mem_cons_self row mt)), ?_⟩
    exact ih (fun r hr => hones r (List.mem_cons_of_mem row hr))

/-- Witness for C5 on a two-item, two-token batch. -/
theorem C5_reduce_mean_all_valid_is_unweighted_mean_witness :
    pool_tokens [[[1, 3], [3, 5]], [[0, 2], [4, 6]]] [[1, 1], [1, 1]]
        "reduce_mean" false
      = some ([[[1, 3], [3, 5]], [[0, 2], [4, 6]]].map (fun item =>
          unweightedMeanSpec item 2)) :=
  C5_reduce_mean_all_valid_is_unweighted_mean
    [[[1, 3], [3, 5]], [[0, 2], [4, 6]]] [[1, 1], [1, 1]]
    (by decide) (by decide)

/-- C6 counterexample: a table of one header line and two distinct words with
3-dimensional vectors.  The claim says the resulting table holds exactly
those two vectors; but the loop of `load_vectors` discards every line of
fewer than 4 components while no dimensionality is established (line 945,
the word2vec-header heuristic), so both data lines are skipped as presumed
headers, no dimensionality is ever established, and
`torch.zeros((len(vocab), None))` (line 960) raises a `TypeError` (`none`)
instead of producing a table. -/
theorem C6_counterexample_three_dimensional_vectors_lost :
    load_vectors ["w1", "w2"]
        [("2", [3]), ("w1", [1, 2, 3]), ("w2", [4, 5, 6])] = none := by
  rfl

/-- C6 amended: the loader behaves as the claim describes once the vector
dimensionality is at least 4 (so the data lines escape the header
heuristic): after one header line (fewer than 4 components) and two distinct
words with vectors of the common dimensionality `v1.length ≥ 4`, the
resulting table holds exactly those two vectors at the vocabulary indices of
their words, with no missing-word warnings. -/
theorem C6_amended_two_vectors_loaded_at_their_indices
    (w1 w2 hw : String) (hv v1 v2 : List ℚ) (hne : w1 ≠ w2)
    (hhdr : hv.length < 4) (hlong : 4 ≤ v1.length)
    (hlen : v2.length = v1.length) :
    load_vectors [w1, w2] [(hw, hv), (w1, v1), (w2, v2)]
      = some ([v1, v2], []) := by
  have h21 : (w2 == w1) = false := by
    simp only [beq_eq_false_iff_ne, ne_eq]
    exact fun hc => hne hc.symm
  have hnl : ¬ v1.length < 4 := Nat.not_lt.mpr hlong
  have hfold : foldVectors [(hw, hv), (w1, v1), (w2, v2)]
      = ⟨[w1, w2], 0, some v1.length, [(w1, v1), (w2, v2)]⟩ := by
    unfold foldVectors
    simp [processLine, hhdr, hnl, List.contains, List.elem, h21, hlen]
  unfold load_vectors
  rw [hfold]
  simp [List.lookup, h21]

/-- Witness for the amended C6 on a concrete 4-dimensional table. -/
theorem C6_amended_two_vectors_loaded_at_their_indices_witness :
    load_vectors ["w1", "w2"]
        [("2", [3]), ("w1", [1, 2, 3, 7]), ("w2", [4, 5, 6, 8])]
      = some ([[1, 2, 3, 7], [4, 5, 6, 8]], []) :=
  C6_amended_two_vectors_loaded_at_their_indices "w1" "w2" "2" [3]
    [1, 2, 3, 7] [4, 5, 6, 8] (by decide) (by decide) (by decide) (by decide)

/-- C7: once some line of the table established a dimensionality `d`,
loading completes without a fatal error; the table has one row per
vocabulary entry; and every vocabulary word that got no vector receives the
zero vector of dimensionality `d` together with a logged warning. -/
theorem C7_missing_vocab_word_zero_fallback (vocab : List String)
    (lines : List (String × List ℚ)) (d : ℕ)
    (hd : (foldVectors lines).dim = some d) :
    ∃ table warns, load_vectors vocab lines = some (table, warns)
      ∧ table.length = vocab.length
      ∧ (∀ i : Fin vocab.length,
           (List.lookup (vocab.get i) (foldVectors lines).vectors).isNone
               = true →
             table.get? i.val = some (List.replicate d 0)
               ∧ vocab.get i ∈ warns)
      ∧ (∀ i : Fin vocab.length, ∃ v, table.get? i.val = some v) := by
  refine ⟨vocab.map (fun w =>
      (List.lookup w (foldVectors lines).vectors).getD (List.replicate d 0)),
    vocab.filter (fun w =>
      (List.lookup w (foldVectors lines).vectors).isNone), ?_, ?_, ?_, ?_⟩
  · unfold load_vectors
    rw [hd]
  · exact List.length_map _ _
  · intro i hnone
    constructor
    · have hn := Option.isNone_iff_eq_none.mp hnone
      rw [List.get?_map, List.get?_eq_get i.isLt]
      simp only [List.get_eq_getElem] at hn
      simp [hn]
    · exact List.mem_filter.mpr ⟨List.get_mem vocab i.val i.isLt, hnone⟩
  · intro i
    rw [List.get?_map, List.get?_eq_get i.isLt]
    exact ⟨_, rfl⟩

/-- Witness for C7: a two-word vocabulary of which only one word has a
vector in the table. -/
theorem C7_missing_vocab_word_zero_fallback_witness :
    ∃ table warns,
      load_vectors ["hello", "unk"] [("hello", [1, 2, 3, 4])]
          = some (table, warns)
        ∧ table.length = (["hello", "unk"] : List String).length
        ∧ (∀ i : Fin (["hello", "unk"] : List String).length,
             (List.lookup ((["hello", "unk"] : List String).get i)
                 (foldVectors [("hello", [1, 2, 3, 4])]).vectors).isNone
                 = true →
               table.get? i.val = some (List.replicate 4 0)
                 ∧ (["hello", "unk"] : List String).get i ∈ warns)
        ∧ (∀ i : Fin (["hello", "unk"] : List String).length,
             ∃ v, table.get? i.val = some v) :=
  C7_missing_vocab_word_zero_fallback ["hello", "unk"]
    [("hello", [1, 2, 3, 4])] 4 (by rfl)

/-- The accumulator of the `dictIndex` fold ends up `some` whenever it starts
`some` or some index in the remaining list hits the word. -/
theorem dictIndex_fold_isSome (tokens : List String) (w : String)
    (l : List ℕ) (acc : Option ℕ)
    (h : acc.isSome = true ∨ ∃ i ∈ l, tokens.get? i = some w) :
    (l.foldl
        (fun acc i => if tokens.get? i = some w then some i else acc)
        acc).isSome = true := by
  induction l generalizing acc with
  | nil =>
    rcases h with h | ⟨i, hi, _⟩
    · exact h
    · simp at hi
  | cons j t ih =>
    apply ih
    rcases h with h | ⟨i, hi, hw⟩
    · left
      show (if tokens.get? j = some w then some j else acc).isSome = true
      by_cases hj : tokens.get? j = some w
      · rw [if_pos hj]
        rfl
      · rw [if_neg hj]
        exact h
    · rcases List.mem_cons.mp hi with rfl | hit
      · left
        show (if tokens.get? i = some w then some i else acc).isSome = true
        rw [if_pos hw]
        rfl
      · right; exact ⟨i, hit, hw⟩

/-- A token the vocab contains gets an index in the vocab dict. -/
theorem dictIndex_isSome_of_contains (tokens : List String) (w : String)
    (h : tokens.contains w = true) : (dictIndex tokens w).isSome = true := by
  have hmem : w ∈ tokens := by simpa using h
  obtain ⟨n, hn⟩ := List.mem_iff_get?.mp hmem
  have hlt : n < tokens.length := by
    by_contra hge
    rw [List.get?_eq_none.mpr (Nat.le_of_not_lt hge)] at hn
    exact Option.noConfusion hn
  exact dictIndex_fold_isSome tokens w _ none
    (Or.inr ⟨n, List.mem_range.mpr hlt, hn⟩)

/-- C8: constructing an `EmbeddingModel` over a vocabulary without the
`"[UNK]"` marker fails with the assertion of line 917 (given the vector
loading itself succeeded, which runs first); with the marker present,
construction succeeds and records the marker's vocabulary-dict index as
`unk_idx`. -/
theorem C8_unk_token_required :
    (∀ (tokens : List String) (lines : List (String × List ℚ))
        (p : List (List ℚ) × List String),
        load_vectors (dictKeys tokens) lines = some p →
        tokens.contains "[UNK]" = false →
        EmbeddingModel_init tokens lines = .error noUnkMsg)
  ∧ (∀ (tokens : List String) (lines : List (String × List ℚ))
        (p : List (List ℚ) × List String),
        load_vectors (dictKeys tokens) lines = some p →
        tokens.contains "[UNK]" = true →
        ∃ st, EmbeddingModel_init tokens lines = .ok st
          ∧ some st.unk_idx = dictIndex tokens "[UNK]") := by
  constructor
  · intro tokens lines p hp hno
    have hno' : "[UNK]" ∉ tokens := by simpa using hno
    simp only [EmbeddingModel_init]
    rw [hp]
    simp [hno']
  · intro tokens lines p hp hyes
    have hs := dictIndex_isSome_of_contains tokens "[UNK]" hyes
    cases hidx : dictIndex tokens "[UNK]" with
    | none => rw [hidx] at hs; simp at hs
    | some i =>
      refine ⟨{ vocabKeys := dictKeys tokens, embeddings := p.1,
                unk_idx := (dictIndex tokens "[UNK]").getD 0 }, ?_, ?_⟩
      · have hyes' : "[UNK]" ∈ tokens := by simpa using hyes
        simp only [EmbeddingModel_init]
        rw [hp]
        simp [hyes']
      · rw [hidx]
        rfl

/-- Witness for C8: a vocabulary without and one with the `"[UNK]"`
marker. -/
theorem C8_unk_token_required_witness :
    EmbeddingModel_init ["only", "words"] [("only", [1, 2, 3, 4])]
        = .error noUnkMsg
  ∧ ∃ st, EmbeddingModel_init ["[UNK]", "hello"] [("hello", [1, 2, 3, 4])]
        = .ok st
      ∧ some st.unk_idx = dictIndex ["[UNK]", "hello"] "[UNK]" :=
  ⟨C8_unk_token_required.1 ["only", "words"] [("only", [1, 2, 3, 4])]
      ([[1, 2, 3, 4], [0, 0, 0, 0]], ["words"]) (by rfl) (by rfl),
   C8_unk_token_required.2 ["[UNK]", "hello"] [("hello", [1, 2, 3, 4])]
      ([[0, 0, 0, 0], [1, 2, 3, 4]], ["[UNK]"]) (by rfl) (by rfl)⟩

/-- C9: saving a loaded model's config (which stamps the adapter's class
name and language into it) and reloading through the generic dispatch on the
saved `name` field reproduces a model of the same adapter class, the same
language and the same vocabulary size, for every adapter class registered in
`subclasses`. -/
theorem C9_save_then_load_roundtrip (m : LoadedModel)
    (h : registeredSubclasses.contains m.cls = true) :
    ∃ m2, load_saved_dir (save_config m) = some m2
      ∧ m2.cls = m.cls ∧ m2.language = m.language
      ∧ m2.vocab_size = m.vocab_size := by
  refine ⟨adapter_farm_load m.cls (save_config m), ?_, rfl, rfl, rfl⟩
  unfold load_saved_dir save_config
  rw [if_pos h]

/-- Witness for C9 on a saved German BERT model. -/
theorem C9_save_then_load_roundtrip_witness :
    ∃ m2, load_saved_dir (save_config ⟨"Bert", "german", 30000⟩) = some m2
      ∧ m2.cls = "Bert" ∧ m2.language = "german"
      ∧ m2.vocab_size = 30000 :=
  C9_save_then_load_roundtrip ⟨"Bert", "german", 30000⟩ (by rfl)

/-- C10: `DistilBert.forward` returns a pair `(sequence_output,
pooled_output)` on every input and in every state — in particular also after
`enable_hidden_states_output` — never a third all-hidden-states component;
whereas the `Bert`, `Albert`, `Roberta`, `XLMRoberta` and `XLNet` adapters,
once hidden-state output is enabled, return the triple that ends in the
hidden states. -/
theorem C10_distilbert_forward_always_pair :
    (∀ (α : Type) (m : DistilBert) (pooler : α → α) (s hs : α),
        (m.forward pooler s hs).length = 2
        ∧ (m.enable_hidden_states_output.forward pooler s hs).length = 2)
  ∧ (∀ (α : Type) (m : Bert) (s p hs : α),
        m.enable_hidden_states_output.forward s p hs = [s, p, hs])
  ∧ (∀ (α : Type) (m : Albert) (s p hs : α),
        m.enable_hidden_states_output.forward s p hs = [s, p, hs])
  ∧ (∀ (α : Type) (m : Roberta) (s p hs : α),
        m.enable_hidden_states_output.forward s p hs = [s, p, hs])
  ∧ (∀ (α : Type) (m : XLMRoberta) (s p hs : α),
        m.enable_hidden_states_output.forward s p hs = [s, p, hs])
  ∧ (∀ (α : Type) (m : XLNet) (pooler : α → α) (s hs : α),
        m.enable_hidden_states_output.forward pooler s hs
          = [s, pooler s, hs]) := by
  refine ⟨?_, ?_, ?_, ?_, ?_, ?_⟩
  · intro α m pooler s hs
    constructor
    · cases hm : m.output_hidden_states <;>
        simp [DistilBert.forward, hm]
    · simp [DistilBert.forward, DistilBert.enable_hidden_states_output]
  · intro α m s p hs
    simp [Bert.forward, Bert.enable_hidden_states_output]
  · intro α m s p hs
    simp [Albert.forward, Albert.enable_hidden_states_output]
  · intro α m s p hs
    simp [Roberta.forward, Roberta.enable_hidden_states_output]
  · intro α m s p hs
    simp [XLMRoberta.forward, XLMRoberta.enable_hidden_states_output]
  · intro α m pooler s hs
    simp [XLNet.forward, XLNet.enable_hidden_states_output]

/-- Witness for C10 on concrete natural-number tensors. -/
theorem C10_distilbert_forward_always_pair_witness :
    ((DistilBert.forward ⟨false⟩ id (0 : ℕ) 1).length = 2
      ∧ ((DistilBert.mk false).enable_hidden_states_output.forward
            id (0 : ℕ) 1).length = 2)
  ∧ (Bert.mk false).enable_hidden_states_output.forward (0 : ℕ) 1 2
      = [0, 1, 2] :=
  ⟨C10_distilbert_forward_always_pair.1 ℕ ⟨false⟩ id 0 1,
   C10_distilbert_forward_always_pair.2.1 ℕ ⟨false⟩ 0 1 2⟩

end Farm
